import Mathlib

/-!
Verification development for the password-manager-crypt core: the
`CryptoService` contract, its two backend implementations
(`NodeCryptoService`, backed by the native runtime crypto library, and
`WebCryptoService`, backed by the standard WebCrypto-style API), the error
taxonomy with its message sanitizer, and the backend-selection factory.

The underlying cryptographic primitives (AES-256-GCM, PBKDF2, the platform
CSPRNG) are external collaborators of the repository: they are invoked, not
implemented, by the code under verification.  They are therefore modelled as
parameters (`GcmModel`, `Pbkdf2Model`, and a random tape `rng : Bytes`), and
theorems that depend on cryptographic facts about them take those facts as
explicit platform-contract hypotheses.  A small executable instance
(`toyGcm`, `toyPbkdf2`) is provided so every such theorem can be evaluated
at concrete inputs.

Bytes are modelled as natural numbers; byte sequences as `List Nat`.  A
JavaScript `throw` is modelled with `Except Thrown`, where `Thrown` covers
the three shapes the code distinguishes: a `CryptoError` (an `Error` whose
`name` field is the string "CryptoError"), any other `Error` object, and a
thrown non-`Error` value.
-/

namespace PMCrypt

/-- A byte sequence (`Uint8Array` in the source). Only lengths and contents
are observable to the service code. -/
abbrev Bytes := List Nat

/-- Mirrors the `CryptoError` shape of `errors/crypto-error.ts`: a category
drawn from the closed set {key_derivation, encryption, decryption,
validation, initialization}, a stable code, and a message.  The TS type is a
union of string literals, so categories are kept as strings here. -/
structure CryptoError where
  category : String
  code : String
  message : String
deriving DecidableEq, Repr

/-- Mirrors `createCryptoError(category, code, message)` from
`errors/crypto-error.ts`. -/
def createCryptoError (category code message : String) : CryptoError :=
  { category := category, code := code, message := message }

/-- A thrown JavaScript value, as the catch clauses of the service code
distinguish them: `cryptoErr` is a `CryptoErrorImpl` (an `Error` whose
constructor sets `name = "CryptoError"`), `platformErr name message` is any
other `Error` object thrown by the platform crypto library, and `nonError`
is a thrown value that is not an `Error` instance at all. -/
inductive Thrown where
  | cryptoErr (e : CryptoError)
  | platformErr (name message : String)
  | nonError
deriving DecidableEq, Repr

/-- Mirrors the guard `error instanceof Error && error.name === 'CryptoError'`
that every catch clause in both backends uses to decide whether to rethrow:
`CryptoErrorImpl` always carries `name = "CryptoError"`; a non-`Error` value
fails the `instanceof` test. -/
def isCryptoNamed : Thrown → Bool
  | .cryptoErr _ => true
  | .platformErr name _ => name == "CryptoError"
  | .nonError => false

/-- Mirrors `error.message` when `error instanceof Error`, and `none` when
the thrown value is not an `Error` object. -/
def Thrown.messageIfError : Thrown → Option String
  | .cryptoErr e => some e.message
  | .platformErr _ message => some message
  | .nonError => none

/-- Substring containment on character lists: true when `sub` occurs
contiguously inside the first argument. -/
def hasSubList : List Char → List Char → Bool
  | [], sub => sub.isEmpty
  | c :: rest, sub => List.isPrefixOf sub (c :: rest) || hasSubList rest sub

/-- JavaScript `haystack.includes(needle)`: substring containment. -/
def strIncludes (s sub : String) : Bool :=
  hasSubList s.toList sub.toList

/-- JavaScript `s.toLowerCase()`, modelled as per-character lowering (the
messages involved are ASCII). -/
def jsToLower (s : String) : String :=
  String.mk (s.data.map Char.toLower)

/-- Mirrors `sanitizeErrorMessage` from `errors/crypto-error.ts`: for a
recognized `Error` object, lower-case its message and look for the literal
substrings "key", "password", "secret"; on a match return the fixed string
"Cryptographic operation failed", otherwise the original message; for a
non-`Error` input return "Unknown cryptographic error". -/
def sanitizeErrorMessage (err : Thrown) : String :=
  match err.messageIfError with
  | some msg =>
      let message := jsToLower msg
      if strIncludes message "key" || strIncludes message "password" ||
          strIncludes message "secret" then
        "Cryptographic operation failed"
      else
        msg
  | none => "Unknown cryptographic error"

/-- Mirrors `KeyDerivationParams` from the shared types: iteration count,
requested key length in bytes, the fixed algorithm tag, and the hash
function name ("sha256" or "sha512" in the published contract; kept a
string, as the backends compare it against the literal "sha512"). -/
structure KeyDerivationParams where
  iterations : Nat
  keyLength : Nat
  algorithm : String
  hashFunction : String
deriving DecidableEq, Repr

/-- Mirrors `EncryptedData` from the shared types: ciphertext, IV, salt and
authentication tag, four independent byte sequences. -/
structure EncryptedData where
  data : Bytes
  iv : Bytes
  salt : Bytes
  authTag : Bytes
deriving DecidableEq, Repr

/-- The hash function a backend selects and passes to its PBKDF2 primitive
(the native API spells it "sha512"/"sha256", the WebCrypto API
"SHA-512"/"SHA-256"; both denote the same functions). -/
inductive HashAlg where
  | sha256
  | sha512
deriving DecidableEq, Repr

/-- The external PBKDF2 primitive, shared platform contract of Node's
`pbkdf2` and WebCrypto's `deriveBits`: hash function, password, salt,
iteration count, output length in bytes.  An `.error` result models a
rejection thrown by the library (e.g. an invalid iteration count). -/
structure Pbkdf2Model where
  run : HashAlg → String → Bytes → Nat → Nat → Except Thrown Bytes

/-- Platform contract: a successful PBKDF2 call returns exactly the
requested number of bytes. -/
def Pbkdf2OutLen (p : Pbkdf2Model) : Prop :=
  ∀ h pw salt iter len k, p.run h pw salt iter len = .ok k → k.length = len

/-- WebCrypto `crypto.subtle.deriveBits`: the output length argument is
given in bits; the underlying PBKDF2 produces `bits / 8` bytes. -/
def subtleDeriveBits (p : Pbkdf2Model) (hash : HashAlg) (password : String)
    (salt : Bytes) (iterations bits : Nat) : Except Thrown Bytes :=
  p.run hash password salt iterations (bits / 8)

/-- The external AES-256-GCM primitive: `enc key iv plaintext` yields the
ciphertext and the authentication tag; `dec key iv ciphertext tag` yields
`some plaintext` on success and `none` on any failure, authentication
failure included (the platform signals failure by throwing, which both
backends catch). -/
structure GcmModel where
  enc : Bytes → Bytes → Bytes → Bytes × Bytes
  dec : Bytes → Bytes → Bytes → Bytes → Option Bytes

/-- Platform contract: decrypting what `enc` produced, with the same
32-byte key and 12-byte IV, recovers the plaintext. -/
def GcmRoundTrip (g : GcmModel) : Prop :=
  ∀ key iv p, key.length = 32 → iv.length = 12 →
    g.dec key iv (g.enc key iv p).1 (g.enc key iv p).2 = some p

/-- Platform contract: GCM authentication tags are 16 bytes. -/
def GcmTagLen (g : GcmModel) : Prop :=
  ∀ key iv p, (g.enc key iv p).2.length = 16

/-- Platform contract: GCM ciphertext has the plaintext's length. -/
def GcmCtLen (g : GcmModel) : Prop :=
  ∀ key iv p, (g.enc key iv p).1.length = p.length

/-- WebCrypto `crypto.subtle.encrypt` for AES-GCM with `tagLength: 128`:
returns the ciphertext with the 16-byte tag appended. -/
def subtleEncrypt (g : GcmModel) (key iv data : Bytes) : Bytes :=
  (g.enc key iv data).1 ++ (g.enc key iv data).2

/-- WebCrypto `crypto.subtle.decrypt` for AES-GCM with `tagLength: 128`:
treats the final 16 bytes of its input as the authentication tag. -/
def subtleDecrypt (g : GcmModel) (key iv combined : Bytes) : Option Bytes :=
  g.dec key iv (combined.take (combined.length - 16))
    (combined.drop (combined.length - 16))

/-- Mirrors `generateIV` (default length 12), identical in both backends:
reads 12 fresh bytes from the platform CSPRNG, modelled as consuming a
prefix of the random tape `rng`. -/
def generateIV (rng : Bytes) : Bytes := rng.take 12

/-- Mirrors `generateSalt` (default length 32), identical in both backends:
reads 32 fresh bytes from the platform CSPRNG tape. -/
def generateSalt (rng : Bytes) : Bytes := rng.take 32

/-- The catch clause shared by `deriveKey` in both backends: a thrown value
that is an `Error` named "CryptoError" is rethrown unchanged; anything else
is wrapped with the given category and code and a sanitized message. -/
def wrapUnlessCryptoNamed (category code : String) :
    Except Thrown Bytes → Except Thrown Bytes
  | .ok k => .ok k
  | .error t =>
      if isCryptoNamed t then .error t
      else .error (.cryptoErr (createCryptoError category code (sanitizeErrorMessage t)))

namespace NodeCryptoService

/-- Body of `NodeCryptoService.deriveKey` (`services/node-crypto.ts`): the
two validation checks, then `pbkdf2Async(password, Buffer.from(salt),
params.iterations, params.keyLength, hashAlgorithm)` where `hashAlgorithm`
is `params.hashFunction === 'sha512' ? 'sha512' : 'sha256'`.  The check
`!password || password.length === 0` on a string is emptiness. -/
def deriveKeyBody (prim : Pbkdf2Model) (password : String) (salt : Bytes)
    (params : KeyDerivationParams) : Except Thrown Bytes :=
  if password = "" then
    .error (.cryptoErr (createCryptoError "validation" "EMPTY_PASSWORD" "Password cannot be empty"))
  else if salt.length = 0 then
    .error (.cryptoErr (createCryptoError "validation" "EMPTY_SALT" "Salt cannot be empty"))
  else
    prim.run (if params.hashFunction = "sha512" then HashAlg.sha512 else HashAlg.sha256)
      password salt params.iterations params.keyLength

/-- `NodeCryptoService.deriveKey`: the body inside the try, with the catch
that rethrows CryptoError-named errors and wraps everything else as
`key_derivation/DERIVATION_FAILED` with a sanitized message. -/
def deriveKey (prim : Pbkdf2Model) (password : String) (salt : Bytes)
    (params : KeyDerivationParams) : Except Thrown Bytes :=
  wrapUnlessCryptoNamed "key_derivation" "DERIVATION_FAILED"
    (deriveKeyBody prim password salt params)

/-- `NodeCryptoService.encrypt`: validation, then a fresh IV (12 bytes) and
a fresh salt (32 bytes) from the CSPRNG tape, then AES-256-GCM via
`createCipheriv`/`update`/`final`/`getAuthTag`.  The primitive is modelled
total on the validated inputs, so the surrounding catch (rethrow
CryptoError-named, else wrap as `encryption/ENCRYPTION_FAILED`) leaves the
result unchanged and is collapsed here. -/
def encrypt (g : GcmModel) (rng : Bytes) (data key : Bytes) :
    Except Thrown EncryptedData :=
  if data.length = 0 then
    .error (.cryptoErr (createCryptoError "validation" "EMPTY_DATA" "Data cannot be empty"))
  else if key.length ≠ 32 then
    .error (.cryptoErr (createCryptoError "validation" "INVALID_KEY_LENGTH" "Key must be 32 bytes for AES-256"))
  else
    let iv := generateIV rng
    let salt := generateSalt (rng.drop 12)
    .ok { data := (g.enc key iv data).1, iv := iv, salt := salt,
          authTag := (g.enc key iv data).2 }

/-- `NodeCryptoService.decrypt`: the four validation checks in source
order, then `createDecipheriv`/`setAuthTag`/`update`/`final`.  The catch
rethrows the CryptoError-named validation errors and resolves to `null`
(here `Option.none` inside `.ok`) on any other thrown error — in
particular on GCM authentication failure in `decipher.final()`. -/
def decrypt (g : GcmModel) (encryptedData : EncryptedData) (key : Bytes) :
    Except Thrown (Option Bytes) :=
  if key.length ≠ 32 then
    .error (.cryptoErr (createCryptoError "validation" "INVALID_KEY_LENGTH" "Key must be 32 bytes for AES-256"))
  else if encryptedData.data.length = 0 then
    .error (.cryptoErr (createCryptoError "validation" "EMPTY_ENCRYPTED_DATA" "Encrypted data cannot be empty"))
  else if encryptedData.iv.length ≠ 12 then
    .error (.cryptoErr (createCryptoError "validation" "INVALID_IV_LENGTH" "IV must be 12 bytes for AES-256-GCM"))
  else if encryptedData.authTag.length ≠ 16 then
    .error (.cryptoErr (createCryptoError "validation" "INVALID_AUTH_TAG_LENGTH" "Auth tag must be 16 bytes for AES-256-GCM"))
  else
    match g.dec key encryptedData.iv encryptedData.data encryptedData.authTag with
    | some plain => .ok (some plain)
    | none => .ok none

end NodeCryptoService

namespace WebCryptoService

/-- Body of `WebCryptoService.deriveKey` (`services/web-crypto.ts`): the
same two validation checks, then `importKey` of the UTF-8 password bytes
and `deriveBits({name:'PBKDF2', salt, iterations, hash}, keyMaterial,
params.keyLength * 8)` — the length argument is in bits.  `hash` is
`params.hashFunction === 'sha512' ? 'SHA-512' : 'SHA-256'`. -/
def deriveKeyBody (prim : Pbkdf2Model) (password : String) (salt : Bytes)
    (params : KeyDerivationParams) : Except Thrown Bytes :=
  if password = "" then
    .error (.cryptoErr (createCryptoError "validation" "EMPTY_PASSWORD" "Password cannot be empty"))
  else if salt.length = 0 then
    .error (.cryptoErr (createCryptoError "validation" "EMPTY_SALT" "Salt cannot be empty"))
  else
    subtleDeriveBits prim
      (if params.hashFunction = "sha512" then HashAlg.sha512 else HashAlg.sha256)
      password salt params.iterations (params.keyLength * 8)

/-- `WebCryptoService.deriveKey`: body plus the identical catch clause
(rethrow CryptoError-named, else wrap as
`key_derivation/DERIVATION_FAILED` with a sanitized message). -/
def deriveKey (prim : Pbkdf2Model) (password : String) (salt : Bytes)
    (params : KeyDerivationParams) : Except Thrown Bytes :=
  wrapUnlessCryptoNamed "key_derivation" "DERIVATION_FAILED"
    (deriveKeyBody prim password salt params)

/-- `WebCryptoService.encrypt`: validation, fresh IV and salt from the
CSPRNG tape, `crypto.subtle.encrypt` (which returns ciphertext and tag
combined), then `slice(0, -16)` / `slice(-16)` to split them — `List.take`
and `List.drop` at `length - 16`, whose truncated subtraction mirrors the
clamping of negative JS slice indices. -/
def encrypt (g : GcmModel) (rng : Bytes) (data key : Bytes) :
    Except Thrown EncryptedData :=
  if data.length = 0 then
    .error (.cryptoErr (createCryptoError "validation" "EMPTY_DATA" "Data cannot be empty"))
  else if key.length ≠ 32 then
    .error (.cryptoErr (createCryptoError "validation" "INVALID_KEY_LENGTH" "Key must be 32 bytes for AES-256"))
  else
    let iv := generateIV rng
    let salt := generateSalt (rng.drop 12)
    let encryptedArray := subtleEncrypt g key iv data
    .ok { data := encryptedArray.take (encryptedArray.length - 16),
          iv := iv, salt := salt,
          authTag := encryptedArray.drop (encryptedArray.length - 16) }

/-- `WebCryptoService.decrypt`: the four validation checks in source order,
then the ciphertext and tag are concatenated (`combinedData.set`) and
passed to `crypto.subtle.decrypt`; the catch rethrows the
CryptoError-named validation errors and returns `null` on any other thrown
error, authentication failure included. -/
def decrypt (g : GcmModel) (encryptedData : EncryptedData) (key : Bytes) :
    Except Thrown (Option Bytes) :=
  if key.length ≠ 32 then
    .error (.cryptoErr (createCryptoError "validation" "INVALID_KEY_LENGTH" "Key must be 32 bytes for AES-256"))
  else if encryptedData.data.length = 0 then
    .error (.cryptoErr (createCryptoError "validation" "EMPTY_ENCRYPTED_DATA" "Encrypted data cannot be empty"))
  else if encryptedData.iv.length ≠ 12 then
    .error (.cryptoErr (createCryptoError "validation" "INVALID_IV_LENGTH" "IV must be 12 bytes for AES-256-GCM"))
  else if encryptedData.authTag.length ≠ 16 then
    .error (.cryptoErr (createCryptoError "validation" "INVALID_AUTH_TAG_LENGTH" "Auth tag must be 16 bytes for AES-256-GCM"))
  else
    match subtleDecrypt g key encryptedData.iv
        (encryptedData.data ++ encryptedData.authTag) with
    | some plain => .ok (some plain)
    | none => .ok none

end WebCryptoService

/-- The ambient host capabilities the factory probes, as the individual
`typeof` tests of `services/crypto-factory.ts` observe them: the three
conjuncts of `isWebCryptoAvailable` (`crypto`, `crypto.subtle`,
`crypto.getRandomValues` defined) and the four conjuncts of
`isNodeEnvironment` (`process` defined, `process.versions` an object, not
null, `process.versions.node` a string). -/
structure Host where
  cryptoDefined : Bool
  subtleDefined : Bool
  getRandomValuesDefined : Bool
  processDefined : Bool
  versionsIsObject : Bool
  versionsNonNull : Bool
  versionsNodeIsString : Bool
deriving DecidableEq, Repr

/-- The two backend classes the factory can instantiate and return. -/
inductive Backend where
  | node
  | web
deriving DecidableEq, Repr

namespace DefaultCryptoServiceFactory

/-- Mirrors `isWebCryptoAvailable` of `services/crypto-factory.ts`. -/
def isWebCryptoAvailable (h : Host) : Bool :=
  h.cryptoDefined && h.subtleDefined && h.getRandomValuesDefined

/-- Mirrors `isNodeEnvironment` of `services/crypto-factory.ts`; the
`typeof` probes cannot themselves throw, so the surrounding
`try { ... } catch { return false }` adds nothing to the model. -/
def isNodeEnvironment (h : Host) : Bool :=
  h.processDefined && h.versionsIsObject && h.versionsNonNull &&
    h.versionsNodeIsString

/-- Mirrors `createForEnvironment`.  The TS parameter type is the closed
union 'node' | 'browser' | 'worker'; the tag is kept a string here so the
default branch (reached through the `never` cast) is part of the model. -/
def createForEnvironment (h : Host) (env : String) : Except CryptoError Backend :=
  if env = "node" then
    if !isNodeEnvironment h then
      .error (createCryptoError "initialization" "ENVIRONMENT_MISMATCH" "Node.js environment not detected")
    else
      .ok Backend.node
  else if env = "browser" ∨ env = "worker" then
    if !isWebCryptoAvailable h then
      .error (createCryptoError "initialization" "WEBCRYPTO_UNAVAILABLE" "WebCrypto API not available in this environment")
    else
      .ok Backend.web
  else
    .error (createCryptoError "initialization" "UNKNOWN_ENVIRONMENT" ("Unknown environment: " ++ env))

/-- Mirrors `createForPerformance`, with the performance level likewise
kept as a string so the default branch is part of the model. -/
def createForPerformance (h : Host) (level : String) : Except CryptoError Backend :=
  if level = "high" then
    if isNodeEnvironment h then .ok Backend.node
    else if isWebCryptoAvailable h then .ok Backend.web
    else .error (createCryptoError "initialization" "NO_CRYPTO_AVAILABLE" "No suitable crypto implementation available")
  else if level = "medium" ∨ level = "low" then
    if isWebCryptoAvailable h then .ok Backend.web
    else if isNodeEnvironment h then .ok Backend.node
    else .error (createCryptoError "initialization" "NO_CRYPTO_AVAILABLE" "No suitable crypto implementation available")
  else
    .error (createCryptoError "initialization" "UNKNOWN_PERFORMANCE_LEVEL" ("Unknown performance level: " ++ level))

end DefaultCryptoServiceFactory

/-- Checksum tag of the toy GCM instance below: a 16-byte value determined
by key, IV and ciphertext. -/
def toyTag (key iv ct : Bytes) : Bytes :=
  (List.range 16).map (fun i => (key.sum * 3 + iv.sum * 5 + ct.sum * 7 + ct.length + i) % 256)

/-- Executable stand-in for the external AES-256-GCM primitive, used only
to evaluate theorems at concrete inputs: the ciphertext is the plaintext
itself and the tag is `toyTag`.  It is not a cipher; it satisfies the
structural platform contract (`GcmRoundTrip`, `GcmTagLen`, `GcmCtLen`) the
theorems assume of the real primitive. -/
def toyGcm : GcmModel where
  enc := fun key iv p => (p, toyTag key iv p)
  dec := fun key iv ct tag => if tag = toyTag key iv ct then some ct else none

/-- A host with the Node.js capability markers and no WebCrypto surface. -/
def hostNode : Host :=
  { cryptoDefined := false, subtleDefined := false, getRandomValuesDefined := false,
    processDefined := true, versionsIsObject := true, versionsNonNull := true,
    versionsNodeIsString := true }

/-- A host with the WebCrypto surface and no Node.js capability markers. -/
def hostWeb : Host :=
  { cryptoDefined := true, subtleDefined := true, getRandomValuesDefined := true,
    processDefined := false, versionsIsObject := false, versionsNonNull := false,
    versionsNodeIsString := false }

/-- A host with neither capability. -/
def hostNone : Host :=
  { cryptoDefined := false, subtleDefined := false, getRandomValuesDefined := false,
    processDefined := false, versionsIsObject := false, versionsNonNull := false,
    versionsNodeIsString := false }

/-- Executable stand-in for a successful PBKDF2 primitive: returns `len`
copies of a byte determined by the inputs. -/
def toyPbkdf2 : Pbkdf2Model where
  run := fun _ pw salt iter len =>
    .ok (List.replicate len ((pw.length + salt.sum + iter) % 256))

/-- Executable stand-in for a PBKDF2 primitive that rejects every call by
throwing the given value, as the platform does e.g. for an invalid
iteration count. -/
def failPbkdf2 (t : Thrown) : Pbkdf2Model where
  run := fun _ _ _ _ _ => .error t

theorem toyGcm_roundTrip : GcmRoundTrip toyGcm := by
  intro key iv p _ _
  simp [toyGcm, GcmRoundTrip]

theorem toyGcm_tagLen : GcmTagLen toyGcm := by
  intro key iv p
  simp [toyGcm, toyTag]

theorem toyGcm_ctLen : GcmCtLen toyGcm := by
  intro key iv p
  simp [toyGcm]

theorem toyPbkdf2_outLen : Pbkdf2OutLen toyPbkdf2 := by
  intro h pw salt iter len k hk
  simp [toyPbkdf2] at hk
  simp [← hk]

end PMCrypt

namespace PMCrypt

/-- Claim C5: `sanitizeErrorMessage` returns exactly "Cryptographic operation
failed" on every recognized error object whose lower-cased message contains
"key", "password", or "secret"; returns the original message unmodified on
every other recognized error object; and returns "Unknown cryptographic
error" on every input that is not a recognized error object. -/
theorem sanitizeErrorMessage_spec :
    (∀ e : CryptoError,
      (strIncludes (jsToLower e.message) "key" || strIncludes (jsToLower e.message) "password" ||
        strIncludes (jsToLower e.message) "secret") = true →
      sanitizeErrorMessage (.cryptoErr e) = "Cryptographic operation failed") ∧
    (∀ e : CryptoError,
      (strIncludes (jsToLower e.message) "key" || strIncludes (jsToLower e.message) "password" ||
        strIncludes (jsToLower e.message) "secret") = false →
      sanitizeErrorMessage (.cryptoErr e) = e.message) ∧
    (∀ name msg : String,
      (strIncludes (jsToLower msg) "key" || strIncludes (jsToLower msg) "password" ||
        strIncludes (jsToLower msg) "secret") = true →
      sanitizeErrorMessage (.platformErr name msg) = "Cryptographic operation failed") ∧
    (∀ name msg : String,
      (strIncludes (jsToLower msg) "key" || strIncludes (jsToLower msg) "password" ||
        strIncludes (jsToLower msg) "secret") = false →
      sanitizeErrorMessage (.platformErr name msg) = msg) ∧
    sanitizeErrorMessage .nonError = "Unknown cryptographic error" := by
  refine ⟨fun e h => ?_, fun e h => ?_, fun name msg h => ?_, fun name msg h => ?_, rfl⟩ <;>
    simp [sanitizeErrorMessage, Thrown.messageIfError, h]

/-- Length of the IV drawn from a sufficiently long CSPRNG tape. -/
theorem generateIV_length (rng : Bytes) (hrng : 12 ≤ rng.length) :
    (generateIV rng).length = 12 := by
  simp only [generateIV, List.length_take]
  omega

/-- Splitting `subtleEncrypt` output at `length - 16` recovers the
ciphertext and the tag, given the platform tag-length contract. -/
theorem subtleEncrypt_split (g : GcmModel) (htag : GcmTagLen g) (key iv data : Bytes) :
    (subtleEncrypt g key iv data).take ((subtleEncrypt g key iv data).length - 16) =
      (g.enc key iv data).1 ∧
    (subtleEncrypt g key iv data).drop ((subtleEncrypt g key iv data).length - 16) =
      (g.enc key iv data).2 := by
  have hlen : ((g.enc key iv data).1 ++ (g.enc key iv data).2).length - 16 =
      (g.enc key iv data).1.length := by
    simp [htag key iv data]
  rw [subtleEncrypt, hlen]
  exact ⟨List.take_left _ _, List.drop_left _ _⟩

/-- Recombining a ciphertext with a 16-byte tag and handing it to
`subtleDecrypt` reaches the underlying GCM decryption on the two parts. -/
theorem subtleDecrypt_append (g : GcmModel) (key iv ct tag : Bytes)
    (ht : tag.length = 16) :
    subtleDecrypt g key iv (ct ++ tag) = g.dec key iv ct tag := by
  have hlen : (ct ++ tag).length - 16 = ct.length := by
    simp [ht]
  rw [subtleDecrypt, hlen, List.take_left, List.drop_left]

/-- Claim C1: for every non-empty `data` and 32-byte `key`, decrypting the
`EncryptedData` produced by `encrypt(data, key)` with the same key returns a
present result byte-identical to `data`, in both backends.  The GCM
primitive is abstract; the platform contract (round trip, 16-byte tags,
length-preserving ciphertext) is assumed of it, and the CSPRNG tape must be
able to deliver the 12-byte IV. -/
theorem encrypt_decrypt_roundTrip (g : GcmModel) (hrt : GcmRoundTrip g)
    (htag : GcmTagLen g) (hct : GcmCtLen g) (rng data key : Bytes)
    (hd : data ≠ []) (hk : key.length = 32) (hrng : 12 ≤ rng.length) :
    (NodeCryptoService.encrypt g rng data key).bind
      (fun ed => NodeCryptoService.decrypt g ed key) = .ok (some data) ∧
    (WebCryptoService.encrypt g rng data key).bind
      (fun ed => WebCryptoService.decrypt g ed key) = .ok (some data) := by
  have hd0 : ¬ data.length = 0 := by
    simpa [List.length_eq_zero] using hd
  have hivlen : (generateIV rng).length = 12 := generateIV_length rng hrng
  have hdec := hrt key (generateIV rng) data hk hivlen
  have hdlen := hct key (generateIV rng) data
  have htlen := htag key (generateIV rng) data
  constructor
  · have henc : NodeCryptoService.encrypt g rng data key =
        .ok { data := (g.enc key (generateIV rng) data).1, iv := generateIV rng,
              salt := generateSalt (rng.drop 12),
              authTag := (g.enc key (generateIV rng) data).2 } := by
      rw [NodeCryptoService.encrypt]
      simp [hd0, hk]
    rw [henc]
    show NodeCryptoService.decrypt g _ key = _
    rw [NodeCryptoService.decrypt]
    simp [hk, hdlen, hd0, hivlen, htlen, hdec]
  · obtain ⟨hs1, hs2⟩ := subtleEncrypt_split g htag key (generateIV rng) data
    have henc : WebCryptoService.encrypt g rng data key =
        .ok { data := (g.enc key (generateIV rng) data).1, iv := generateIV rng,
              salt := generateSalt (rng.drop 12),
              authTag := (g.enc key (generateIV rng) data).2 } := by
      rw [WebCryptoService.encrypt]
      simp only [hd0, hk, if_false, ite_false, ne_eq, not_true_eq_false, not_false_eq_true]
      simp [hd0, hk, hs1, hs2]
    rw [henc]
    show WebCryptoService.decrypt g _ key = _
    rw [WebCryptoService.decrypt]
    have hrecomb := subtleDecrypt_append g key (generateIV rng)
      (g.enc key (generateIV rng) data).1 (g.enc key (generateIV rng) data).2 htlen
    simp [hk, hdlen, hd0, hivlen, htlen, hrecomb, hdec]

/-- Witness for C1: the round trip evaluated on the toy GCM instance with
plaintext [1, 2, 3], the all-zero 32-byte key, and a concrete 44-byte
random tape. -/
theorem encrypt_decrypt_roundTrip_witness :
    (NodeCryptoService.encrypt toyGcm (List.range 44) [1, 2, 3] (List.replicate 32 0)).bind
      (fun ed => NodeCryptoService.decrypt toyGcm ed (List.replicate 32 0)) =
      .ok (some [1, 2, 3]) ∧
    (WebCryptoService.encrypt toyGcm (List.range 44) [1, 2, 3] (List.replicate 32 0)).bind
      (fun ed => WebCryptoService.decrypt toyGcm ed (List.replicate 32 0)) =
      .ok (some [1, 2, 3]) :=
  encrypt_decrypt_roundTrip toyGcm toyGcm_roundTrip toyGcm_tagLen toyGcm_ctLen
    (List.range 44) [1, 2, 3] (List.replicate 32 0)
    (by decide) (by decide) (by decide)

/-- Claim C2: on a well-shaped input (32-byte key, non-empty ciphertext,
12-byte IV, 16-byte tag), if the GCM primitive rejects the
(key, IV, ciphertext, tag) combination — the modelled outcome of a wrong
key or any altered ciphertext or tag byte — `decrypt` returns a present
`.ok none` (JavaScript `null`) and does not surface any error, in both
backends. -/
theorem decrypt_authFailure_absent (g : GcmModel) (ed : EncryptedData) (key : Bytes)
    (hk : key.length = 32) (hd : ed.data ≠ []) (hiv : ed.iv.length = 12)
    (ht : ed.authTag.length = 16)
    (hfail : g.dec key ed.iv ed.data ed.authTag = none) :
    NodeCryptoService.decrypt g ed key = .ok none ∧
    WebCryptoService.decrypt g ed key = .ok none := by
  have hd0 : ¬ ed.data.length = 0 := by
    simpa [List.length_eq_zero] using hd
  have hrecomb := subtleDecrypt_append g key ed.iv ed.data ed.authTag ht
  constructor
  · rw [NodeCryptoService.decrypt]
    simp [hk, hd0, hiv, ht, hfail]
  · rw [WebCryptoService.decrypt]
    simp [hk, hd0, hiv, ht, hrecomb, hfail]

/-- Witness for C2: both backends return a present absent value on a
well-shaped `EncryptedData` whose tag the toy GCM instance rejects. -/
theorem decrypt_authFailure_absent_witness :
    NodeCryptoService.decrypt toyGcm
      { data := [1], iv := List.replicate 12 0, salt := [],
        authTag := List.replicate 16 0 } (List.replicate 32 0) = .ok none ∧
    WebCryptoService.decrypt toyGcm
      { data := [1], iv := List.replicate 12 0, salt := [],
        authTag := List.replicate 16 0 } (List.replicate 32 0) = .ok none :=
  decrypt_authFailure_absent toyGcm
    { data := [1], iv := List.replicate 12 0, salt := [],
      authTag := List.replicate 16 0 } (List.replicate 32 0)
    (by decide) (by decide) (by decide) (by decide) (by decide)

/-- Claim C3: `decrypt` raises a distinct validation-category error — never
an absent result — when the key is not 32 bytes (INVALID_KEY_LENGTH), the
ciphertext is empty (EMPTY_ENCRYPTED_DATA), the IV is not 12 bytes
(INVALID_IV_LENGTH), or the tag is not 16 bytes (INVALID_AUTH_TAG_LENGTH),
with the checks in source order; the result is the same for every GCM
primitive `g`, i.e. all four checks are decided before any call into the
primitive, and both backends behave identically. -/
theorem decrypt_validation_spec (g : GcmModel) (ed : EncryptedData) (key : Bytes) :
    (key.length ≠ 32 →
      NodeCryptoService.decrypt g ed key =
        .error (.cryptoErr (createCryptoError "validation" "INVALID_KEY_LENGTH" "Key must be 32 bytes for AES-256")) ∧
      WebCryptoService.decrypt g ed key =
        .error (.cryptoErr (createCryptoError "validation" "INVALID_KEY_LENGTH" "Key must be 32 bytes for AES-256"))) ∧
    (key.length = 32 → ed.data = [] →
      NodeCryptoService.decrypt g ed key =
        .error (.cryptoErr (createCryptoError "validation" "EMPTY_ENCRYPTED_DATA" "Encrypted data cannot be empty")) ∧
      WebCryptoService.decrypt g ed key =
        .error (.cryptoErr (createCryptoError "validation" "EMPTY_ENCRYPTED_DATA" "Encrypted data cannot be empty"))) ∧
    (key.length = 32 → ed.data ≠ [] → ed.iv.length ≠ 12 →
      NodeCryptoService.decrypt g ed key =
        .error (.cryptoErr (createCryptoError "validation" "INVALID_IV_LENGTH" "IV must be 12 bytes for AES-256-GCM")) ∧
      WebCryptoService.decrypt g ed key =
        .error (.cryptoErr (createCryptoError "validation" "INVALID_IV_LENGTH" "IV must be 12 bytes for AES-256-GCM"))) ∧
    (key.length = 32 → ed.data ≠ [] → ed.iv.length = 12 → ed.authTag.length ≠ 16 →
      NodeCryptoService.decrypt g ed key =
        .error (.cryptoErr (createCryptoError "validation" "INVALID_AUTH_TAG_LENGTH" "Auth tag must be 16 bytes for AES-256-GCM")) ∧
      WebCryptoService.decrypt g ed key =
        .error (.cryptoErr (createCryptoError "validation" "INVALID_AUTH_TAG_LENGTH" "Auth tag must be 16 bytes for AES-256-GCM"))) := by
  refine ⟨fun h1 => ⟨?_, ?_⟩, fun h1 h2 => ⟨?_, ?_⟩,
          fun h1 h2 h3 => ⟨?_, ?_⟩, fun h1 h2 h3 h4 => ⟨?_, ?_⟩⟩ <;>
    first
      | (rw [NodeCryptoService.decrypt];
         simp [h1, *, List.length_eq_zero])
      | (rw [WebCryptoService.decrypt];
         simp [h1, *, List.length_eq_zero])

/-- Witness for C3: each of the four validation failures evaluated at a
concrete malformed input, on the toy GCM instance, in both backends. -/
theorem decrypt_validation_spec_witness :
    (NodeCryptoService.decrypt toyGcm
      { data := [1], iv := List.replicate 12 0, salt := [], authTag := List.replicate 16 0 } [] =
        .error (.cryptoErr (createCryptoError "validation" "INVALID_KEY_LENGTH" "Key must be 32 bytes for AES-256")) ∧
     WebCryptoService.decrypt toyGcm
      { data := [1], iv := List.replicate 12 0, salt := [], authTag := List.replicate 16 0 } [] =
        .error (.cryptoErr (createCryptoError "validation" "INVALID_KEY_LENGTH" "Key must be 32 bytes for AES-256"))) ∧
    (NodeCryptoService.decrypt toyGcm
      { data := [], iv := List.replicate 12 0, salt := [], authTag := List.replicate 16 0 } (List.replicate 32 0) =
        .error (.cryptoErr (createCryptoError "validation" "EMPTY_ENCRYPTED_DATA" "Encrypted data cannot be empty")) ∧
     WebCryptoService.decrypt toyGcm
      { data := [], iv := List.replicate 12 0, salt := [], authTag := List.replicate 16 0 } (List.replicate 32 0) =
        .error (.cryptoErr (createCryptoError "validation" "EMPTY_ENCRYPTED_DATA" "Encrypted data cannot be empty"))) ∧
    (NodeCryptoService.decrypt toyGcm
      { data := [1], iv := [], salt := [], authTag := List.replicate 16 0 } (List.replicate 32 0) =
        .error (.cryptoErr (createCryptoError "validation" "INVALID_IV_LENGTH" "IV must be 12 bytes for AES-256-GCM")) ∧
     WebCryptoService.decrypt toyGcm
      { data := [1], iv := [], salt := [], authTag := List.replicate 16 0 } (List.replicate 32 0) =
        .error (.cryptoErr (createCryptoError "validation" "INVALID_IV_LENGTH" "IV must be 12 bytes for AES-256-GCM"))) ∧
    (NodeCryptoService.decrypt toyGcm
      { data := [1], iv := List.replicate 12 0, salt := [], authTag := [] } (List.replicate 32 0) =
        .error (.cryptoErr (createCryptoError "validation" "INVALID_AUTH_TAG_LENGTH" "Auth tag must be 16 bytes for AES-256-GCM")) ∧
     WebCryptoService.decrypt toyGcm
      { data := [1], iv := List.replicate 12 0, salt := [], authTag := [] } (List.replicate 32 0) =
        .error (.cryptoErr (createCryptoError "validation" "INVALID_AUTH_TAG_LENGTH" "Auth tag must be 16 bytes for AES-256-GCM"))) :=
  ⟨(decrypt_validation_spec toyGcm
      { data := [1], iv := List.replicate 12 0, salt := [], authTag := List.replicate 16 0 } []).1
      (by decide),
   (decrypt_validation_spec toyGcm
      { data := [], iv := List.replicate 12 0, salt := [], authTag := List.replicate 16 0 }
      (List.replicate 32 0)).2.1 (by decide) (by decide),
   (decrypt_validation_spec toyGcm
      { data := [1], iv := [], salt := [], authTag := List.replicate 16 0 }
      (List.replicate 32 0)).2.2.1 (by decide) (by decide) (by decide),
   (decrypt_validation_spec toyGcm
      { data := [1], iv := List.replicate 12 0, salt := [], authTag := [] }
      (List.replicate 32 0)).2.2.2 (by decide) (by decide) (by decide) (by decide)⟩

/-- Claim C4: `deriveKey` fails with `validation/EMPTY_PASSWORD` on every
empty password and with `validation/EMPTY_SALT` on every zero-length salt
(password checked first, as in the source); those validation errors pass
through the catch unchanged, category and code intact; and every failure
thrown by the PBKDF2 primitive — any `t` that is not an Error named
"CryptoError", e.g. a rejected iteration count — is surfaced as
`key_derivation/DERIVATION_FAILED` with the sanitizer applied to its
message, in both backends. -/
theorem deriveKey_error_spec (prim : Pbkdf2Model) (password : String)
    (salt : Bytes) (params : KeyDerivationParams) :
    (password = "" →
      NodeCryptoService.deriveKey prim password salt params =
        .error (.cryptoErr (createCryptoError "validation" "EMPTY_PASSWORD" "Password cannot be empty")) ∧
      WebCryptoService.deriveKey prim password salt params =
        .error (.cryptoErr (createCryptoError "validation" "EMPTY_PASSWORD" "Password cannot be empty"))) ∧
    (password ≠ "" → salt = [] →
      NodeCryptoService.deriveKey prim password salt params =
        .error (.cryptoErr (createCryptoError "validation" "EMPTY_SALT" "Salt cannot be empty")) ∧
      WebCryptoService.deriveKey prim password salt params =
        .error (.cryptoErr (createCryptoError "validation" "EMPTY_SALT" "Salt cannot be empty"))) ∧
    (∀ t : Thrown, password ≠ "" → salt ≠ [] → isCryptoNamed t = false →
      prim.run (if params.hashFunction = "sha512" then HashAlg.sha512 else HashAlg.sha256)
        password salt params.iterations params.keyLength = .error t →
      NodeCryptoService.deriveKey prim password salt params =
        .error (.cryptoErr (createCryptoError "key_derivation" "DERIVATION_FAILED" (sanitizeErrorMessage t))) ∧
      WebCryptoService.deriveKey prim password salt params =
        .error (.cryptoErr (createCryptoError "key_derivation" "DERIVATION_FAILED" (sanitizeErrorMessage t)))) := by
  have h8 : params.keyLength * 8 / 8 = params.keyLength := by omega
  refine ⟨fun h1 => ?_, fun h1 h2 => ?_, fun t h1 h2 h3 h4 => ?_⟩
  · constructor <;>
      simp [NodeCryptoService.deriveKey, NodeCryptoService.deriveKeyBody,
        WebCryptoService.deriveKey, WebCryptoService.deriveKeyBody,
        wrapUnlessCryptoNamed, isCryptoNamed, h1]
  · constructor <;>
      simp [NodeCryptoService.deriveKey, NodeCryptoService.deriveKeyBody,
        WebCryptoService.deriveKey, WebCryptoService.deriveKeyBody,
        wrapUnlessCryptoNamed, isCryptoNamed, h1, h2]
  · constructor <;>
      simp [NodeCryptoService.deriveKey, NodeCryptoService.deriveKeyBody,
        WebCryptoService.deriveKey, WebCryptoService.deriveKeyBody,
        subtleDeriveBits, wrapUnlessCryptoNamed, h8, h1, h2, h3, h4,
        List.length_eq_zero]

/-- Witness for C4: the three failure modes evaluated concretely — empty
password, empty salt, and a primitive (here one that rejects every call by
throwing a RangeError about the iteration count) whose failure is wrapped
as DERIVATION_FAILED with a sanitized message. -/
theorem deriveKey_error_spec_witness :
    (NodeCryptoService.deriveKey toyPbkdf2 "" [1]
        { iterations := 1000, keyLength := 32, algorithm := "pbkdf2", hashFunction := "sha256" } =
      .error (.cryptoErr (createCryptoError "validation" "EMPTY_PASSWORD" "Password cannot be empty")) ∧
     WebCryptoService.deriveKey toyPbkdf2 "" [1]
        { iterations := 1000, keyLength := 32, algorithm := "pbkdf2", hashFunction := "sha256" } =
      .error (.cryptoErr (createCryptoError "validation" "EMPTY_PASSWORD" "Password cannot be empty"))) ∧
    (NodeCryptoService.deriveKey toyPbkdf2 "pw" []
        { iterations := 1000, keyLength := 32, algorithm := "pbkdf2", hashFunction := "sha256" } =
      .error (.cryptoErr (createCryptoError "validation" "EMPTY_SALT" "Salt cannot be empty")) ∧
     WebCryptoService.deriveKey toyPbkdf2 "pw" []
        { iterations := 1000, keyLength := 32, algorithm := "pbkdf2", hashFunction := "sha256" } =
      .error (.cryptoErr (createCryptoError "validation" "EMPTY_SALT" "Salt cannot be empty"))) ∧
    (NodeCryptoService.deriveKey (failPbkdf2 (.platformErr "RangeError" "Invalid iteration count")) "pw" [1]
        { iterations := 0, keyLength := 32, algorithm := "pbkdf2", hashFunction := "sha256" } =
      .error (.cryptoErr (createCryptoError "key_derivation" "DERIVATION_FAILED"
        (sanitizeErrorMessage (.platformErr "RangeError" "Invalid iteration count")))) ∧
     WebCryptoService.deriveKey (failPbkdf2 (.platformErr "RangeError" "Invalid iteration count")) "pw" [1]
        { iterations := 0, keyLength := 32, algorithm := "pbkdf2", hashFunction := "sha256" } =
      .error (.cryptoErr (createCryptoError "key_derivation" "DERIVATION_FAILED"
        (sanitizeErrorMessage (.platformErr "RangeError" "Invalid iteration count"))))) :=
  ⟨(deriveKey_error_spec toyPbkdf2 "" [1]
      { iterations := 1000, keyLength := 32, algorithm := "pbkdf2", hashFunction := "sha256" }).1 rfl,
   (deriveKey_error_spec toyPbkdf2 "pw" []
      { iterations := 1000, keyLength := 32, algorithm := "pbkdf2", hashFunction := "sha256" }).2.1
      (by decide) rfl,
   (deriveKey_error_spec (failPbkdf2 (.platformErr "RangeError" "Invalid iteration count")) "pw" [1]
      { iterations := 0, keyLength := 32, algorithm := "pbkdf2", hashFunction := "sha256" }).2.2
      (.platformErr "RangeError" "Invalid iteration count")
      (by decide) (by decide) (by decide) rfl⟩

/-- Claim C10: `decrypt` never reads the `salt` field of `EncryptedData`:
two inputs differing only in `salt` — any lengths, empty included — give
identical results under every key and every GCM primitive, in both
backends: the salt undergoes no validation and has no influence on the
outcome. -/
theorem decrypt_salt_independent (g : GcmModel) (ed : EncryptedData)
    (key s1 s2 : Bytes) :
    NodeCryptoService.decrypt g { ed with salt := s1 } key =
      NodeCryptoService.decrypt g { ed with salt := s2 } key ∧
    WebCryptoService.decrypt g { ed with salt := s1 } key =
      WebCryptoService.decrypt g { ed with salt := s2 } key :=
  ⟨rfl, rfl⟩

/-- Witness for C5 at the spec's scenario inputs: the message
"Invalid key provided" sanitizes to "Cryptographic operation failed", the
message "Invalid data format" passes through unchanged, and a thrown
non-Error value sanitizes to "Unknown cryptographic error". -/
theorem sanitizeErrorMessage_spec_witness :
    sanitizeErrorMessage (.platformErr "Error" "Invalid key provided") =
      "Cryptographic operation failed" ∧
    sanitizeErrorMessage (.platformErr "Error" "Invalid data format") =
      "Invalid data format" ∧
    sanitizeErrorMessage .nonError = "Unknown cryptographic error" :=
  ⟨sanitizeErrorMessage_spec.2.2.1 "Error" "Invalid key provided" (by decide),
   sanitizeErrorMessage_spec.2.2.2.1 "Error" "Invalid data format" (by decide),
   sanitizeErrorMessage_spec.2.2.2.2⟩

/-- Whenever `NodeCryptoService.deriveKey` succeeds, the key came from the
PBKDF2 primitive and therefore has the requested length. -/
theorem nodeDeriveKey_ok_length (prim : Pbkdf2Model) (hout : Pbkdf2OutLen prim)
    (password : String) (salt : Bytes) (params : KeyDerivationParams) :
    ∀ k, NodeCryptoService.deriveKey prim password salt params = .ok k →
      k.length = params.keyLength := by
  intro k hk
  rw [NodeCryptoService.deriveKey] at hk
  cases hb : NodeCryptoService.deriveKeyBody prim password salt params with
  | ok k2 =>
      rw [hb] at hk
      simp [wrapUnlessCryptoNamed] at hk
      subst hk
      rw [NodeCryptoService.deriveKeyBody] at hb
      by_cases hp : password = ""
      · simp [hp] at hb
      by_cases hs : salt.length = 0
      · simp [hp, hs] at hb
      simp [hp, hs] at hb
      exact hout _ _ _ _ _ _ hb
  | error t =>
      rw [hb] at hk
      rw [wrapUnlessCryptoNamed] at hk
      split at hk <;> simp at hk

/-- Claim C6: for a fixed (password, salt, params) tuple with non-empty
password and salt, `deriveKey` is a pure function of that tuple and of the
(deterministic) PBKDF2 primitive, the native and WebCrypto backends return
identical results — same hash selection ("sha512" picks SHA-512, anything
else SHA-256) and same byte count, the web backend's bit count collapsing
as `keyLength * 8 / 8` — and any returned key has exactly `keyLength`
bytes (stated result-wise so the equation also covers the failure case). -/
theorem deriveKey_deterministic_agreement (prim : Pbkdf2Model)
    (hout : Pbkdf2OutLen prim) (password : String) (salt : Bytes)
    (params : KeyDerivationParams) (_hp : password ≠ "") (_hs : salt ≠ []) :
    NodeCryptoService.deriveKey prim password salt params =
      WebCryptoService.deriveKey prim password salt params ∧
    (NodeCryptoService.deriveKey prim password salt params).map List.length =
      (NodeCryptoService.deriveKey prim password salt params).map
        (fun _ => params.keyLength) := by
  have h8 : params.keyLength * 8 / 8 = params.keyLength := by omega
  constructor
  · have hbody : NodeCryptoService.deriveKeyBody prim password salt params =
        WebCryptoService.deriveKeyBody prim password salt params := by
      rw [NodeCryptoService.deriveKeyBody, WebCryptoService.deriveKeyBody,
        subtleDeriveBits, h8]
    rw [NodeCryptoService.deriveKey, WebCryptoService.deriveKey, hbody]
  · cases hres : NodeCryptoService.deriveKey prim password salt params with
    | ok k =>
        simp [Except.map,
          nodeDeriveKey_ok_length prim hout password salt params k hres]
    | error t => simp [Except.map]

/-- Witness for C6 on the toy PBKDF2 instance with password "p", salt [1],
1 iteration, 32-byte output, hash tag "sha512". -/
theorem deriveKey_deterministic_agreement_witness :
    NodeCryptoService.deriveKey toyPbkdf2 "p" [1]
        { iterations := 1, keyLength := 32, algorithm := "pbkdf2", hashFunction := "sha512" } =
      WebCryptoService.deriveKey toyPbkdf2 "p" [1]
        { iterations := 1, keyLength := 32, algorithm := "pbkdf2", hashFunction := "sha512" } ∧
    (NodeCryptoService.deriveKey toyPbkdf2 "p" [1]
        { iterations := 1, keyLength := 32, algorithm := "pbkdf2", hashFunction := "sha512" }).map
        List.length =
      (NodeCryptoService.deriveKey toyPbkdf2 "p" [1]
        { iterations := 1, keyLength := 32, algorithm := "pbkdf2", hashFunction := "sha512" }).map
        (fun _ => 32) :=
  deriveKey_deterministic_agreement toyPbkdf2 toyPbkdf2_outLen "p" [1]
    { iterations := 1, keyLength := 32, algorithm := "pbkdf2", hashFunction := "sha512" }
    (by decide) (by decide)

/-- On valid inputs, `NodeCryptoService.encrypt` returns exactly the record
built from the GCM primitive's output and the two CSPRNG tape reads. -/
theorem nodeEncrypt_eq (g : GcmModel) (rng data key : Bytes)
    (hd : ¬ data.length = 0) (hk : key.length = 32) :
    NodeCryptoService.encrypt g rng data key =
      .ok { data := (g.enc key (generateIV rng) data).1, iv := generateIV rng,
            salt := generateSalt (rng.drop 12),
            authTag := (g.enc key (generateIV rng) data).2 } := by
  rw [NodeCryptoService.encrypt]
  simp [hd, hk]

/-- On valid inputs, `WebCryptoService.encrypt` returns the same record:
the combined `subtleEncrypt` output split at `length - 16` is the
ciphertext/tag pair of the underlying primitive. -/
theorem webEncrypt_eq (g : GcmModel) (htag : GcmTagLen g) (rng data key : Bytes)
    (hd : ¬ data.length = 0) (hk : key.length = 32) :
    WebCryptoService.encrypt g rng data key =
      .ok { data := (g.enc key (generateIV rng) data).1, iv := generateIV rng,
            salt := generateSalt (rng.drop 12),
            authTag := (g.enc key (generateIV rng) data).2 } := by
  obtain ⟨hs1, hs2⟩ := subtleEncrypt_split g htag key (generateIV rng) data
  rw [WebCryptoService.encrypt]
  simp [hd, hk, hs1, hs2]

/-- Claim C7: every successful `encrypt` call (non-empty data, 32-byte key,
CSPRNG able to deliver 44 bytes) returns an `EncryptedData` whose IV is 12
bytes, salt 32 bytes and tag 16 bytes, and whose IV and salt are exactly
the bytes freshly consumed from the platform CSPRNG tape within the call —
`generateIV rng` and `generateSalt (rng.drop 12)` — a value depending on
the tape alone and on no caller-supplied input; in the value semantics of
the model the four returned fields are independent sequences (the source
builds them with fresh `new Uint8Array`/`slice` copies).  Both backends. -/
theorem encrypt_shape_spec (g : GcmModel) (htag : GcmTagLen g)
    (rng data key : Bytes) (hd : data ≠ []) (hk : key.length = 32)
    (hrng : 44 ≤ rng.length) :
    (NodeCryptoService.encrypt g rng data key).map
        (fun ed => (ed.iv.length, ed.salt.length, ed.authTag.length)) =
      .ok (12, 32, 16) ∧
    (NodeCryptoService.encrypt g rng data key).map EncryptedData.iv =
      .ok (generateIV rng) ∧
    (NodeCryptoService.encrypt g rng data key).map EncryptedData.salt =
      .ok (generateSalt (rng.drop 12)) ∧
    (WebCryptoService.encrypt g rng data key).map
        (fun ed => (ed.iv.length, ed.salt.length, ed.authTag.length)) =
      .ok (12, 32, 16) ∧
    (WebCryptoService.encrypt g rng data key).map EncryptedData.iv =
      .ok (generateIV rng) ∧
    (WebCryptoService.encrypt g rng data key).map EncryptedData.salt =
      .ok (generateSalt (rng.drop 12)) := by
  have hd0 : ¬ data.length = 0 := by
    simpa [List.length_eq_zero] using hd
  have hivlen : (generateIV rng).length = 12 :=
    generateIV_length rng (by omega)
  have hsaltlen : (generateSalt (rng.drop 12)).length = 32 := by
    simp only [generateSalt, List.length_take, List.length_drop]
    omega
  have htlen := htag key (generateIV rng) data
  rw [nodeEncrypt_eq g rng data key hd0 hk, webEncrypt_eq g htag rng data key hd0 hk]
  simp [Except.map, hivlen, hsaltlen, htlen]

/-- Witness for C7 on the toy GCM instance: plaintext [7], all-zero 32-byte
key, tape of the first 44 naturals. -/
theorem encrypt_shape_spec_witness :
    (NodeCryptoService.encrypt toyGcm (List.range 44) [7] (List.replicate 32 0)).map
        (fun ed => (ed.iv.length, ed.salt.length, ed.authTag.length)) =
      .ok (12, 32, 16) ∧
    (NodeCryptoService.encrypt toyGcm (List.range 44) [7] (List.replicate 32 0)).map
        EncryptedData.iv = .ok (generateIV (List.range 44)) ∧
    (NodeCryptoService.encrypt toyGcm (List.range 44) [7] (List.replicate 32 0)).map
        EncryptedData.salt = .ok (generateSalt ((List.range 44).drop 12)) ∧
    (WebCryptoService.encrypt toyGcm (List.range 44) [7] (List.replicate 32 0)).map
        (fun ed => (ed.iv.length, ed.salt.length, ed.authTag.length)) =
      .ok (12, 32, 16) ∧
    (WebCryptoService.encrypt toyGcm (List.range 44) [7] (List.replicate 32 0)).map
        EncryptedData.iv = .ok (generateIV (List.range 44)) ∧
    (WebCryptoService.encrypt toyGcm (List.range 44) [7] (List.replicate 32 0)).map
        EncryptedData.salt = .ok (generateSalt ((List.range 44).drop 12)) :=
  encrypt_shape_spec toyGcm toyGcm_tagLen (List.range 44) [7] (List.replicate 32 0)
    (by decide) (by decide) (by decide)

/-- Claim C8: `createForEnvironment("node")` returns the native backend
when the runtime version metadata probe succeeds and fails with
`initialization/ENVIRONMENT_MISMATCH` otherwise; `"browser"` and
`"worker"` return the WebCrypto backend when the subtle-namespace and
random-fill probe succeeds and fail with
`initialization/WEBCRYPTO_UNAVAILABLE` otherwise; every other tag fails
with `initialization/UNKNOWN_ENVIRONMENT`. -/
theorem createForEnvironment_spec (h : Host) :
    (DefaultCryptoServiceFactory.isNodeEnvironment h = true →
      DefaultCryptoServiceFactory.createForEnvironment h "node" = .ok Backend.node) ∧
    (DefaultCryptoServiceFactory.isNodeEnvironment h = false →
      DefaultCryptoServiceFactory.createForEnvironment h "node" =
        .error (createCryptoError "initialization" "ENVIRONMENT_MISMATCH" "Node.js environment not detected")) ∧
    (∀ env, (env = "browser" ∨ env = "worker") →
      DefaultCryptoServiceFactory.isWebCryptoAvailable h = true →
      DefaultCryptoServiceFactory.createForEnvironment h env = .ok Backend.web) ∧
    (∀ env, (env = "browser" ∨ env = "worker") →
      DefaultCryptoServiceFactory.isWebCryptoAvailable h = false →
      DefaultCryptoServiceFactory.createForEnvironment h env =
        .error (createCryptoError "initialization" "WEBCRYPTO_UNAVAILABLE" "WebCrypto API not available in this environment")) ∧
    (∀ env, env ≠ "node" → env ≠ "browser" → env ≠ "worker" →
      DefaultCryptoServiceFactory.createForEnvironment h env =
        .error (createCryptoError "initialization" "UNKNOWN_ENVIRONMENT" ("Unknown environment: " ++ env))) := by
  refine ⟨fun h1 => ?_, fun h1 => ?_, fun env henv h2 => ?_, fun env henv h2 => ?_,
          fun env h1 h2 h3 => ?_⟩
  · rw [DefaultCryptoServiceFactory.createForEnvironment]
    simp [h1]
  · rw [DefaultCryptoServiceFactory.createForEnvironment]
    simp [h1]
  · rcases henv with rfl | rfl
    · rw [DefaultCryptoServiceFactory.createForEnvironment]
      simp [h2, show ¬("browser" : String) = "node" from by decide]
    · rw [DefaultCryptoServiceFactory.createForEnvironment]
      simp [h2, show ¬("worker" : String) = "node" from by decide]
  · rcases henv with rfl | rfl
    · rw [DefaultCryptoServiceFactory.createForEnvironment]
      simp [h2, show ¬("browser" : String) = "node" from by decide]
    · rw [DefaultCryptoServiceFactory.createForEnvironment]
      simp [h2, show ¬("worker" : String) = "node" from by decide]
  · rw [DefaultCryptoServiceFactory.createForEnvironment]
    simp [h1, h2, h3]

/-- Witness for C8: all five factory branches evaluated on concrete hosts
carrying exactly one, the other, or neither capability. -/
theorem createForEnvironment_spec_witness :
    DefaultCryptoServiceFactory.createForEnvironment hostNode "node" = .ok Backend.node ∧
    DefaultCryptoServiceFactory.createForEnvironment hostNone "node" =
      .error (createCryptoError "initialization" "ENVIRONMENT_MISMATCH" "Node.js environment not detected") ∧
    DefaultCryptoServiceFactory.createForEnvironment hostWeb "browser" = .ok Backend.web ∧
    DefaultCryptoServiceFactory.createForEnvironment hostNone "worker" =
      .error (createCryptoError "initialization" "WEBCRYPTO_UNAVAILABLE" "WebCrypto API not available in this environment") ∧
    DefaultCryptoServiceFactory.createForEnvironment hostNone "deno" =
      .error (createCryptoError "initialization" "UNKNOWN_ENVIRONMENT" ("Unknown environment: " ++ "deno")) :=
  ⟨(createForEnvironment_spec hostNode).1 rfl,
   (createForEnvironment_spec hostNone).2.1 rfl,
   (createForEnvironment_spec hostWeb).2.2.1 "browser" (Or.inl rfl) rfl,
   (createForEnvironment_spec hostNone).2.2.2.1 "worker" (Or.inr rfl) rfl,
   (createForEnvironment_spec hostNone).2.2.2.2 "deno" (by decide) (by decide) (by decide)⟩

/-- Claim C9: `createForPerformance("high")` prefers the native backend
when the Node probe succeeds, falls back to the WebCrypto backend when its
probe succeeds, and otherwise fails with
`initialization/NO_CRYPTO_AVAILABLE`; `"medium"` and `"low"` prefer the
WebCrypto backend with the native one as fallback, same failure when
neither is present; every other level fails with
`initialization/UNKNOWN_PERFORMANCE_LEVEL`. -/
theorem createForPerformance_spec (h : Host) :
    (DefaultCryptoServiceFactory.isNodeEnvironment h = true →
      DefaultCryptoServiceFactory.createForPerformance h "high" = .ok Backend.node) ∧
    (DefaultCryptoServiceFactory.isNodeEnvironment h = false →
      DefaultCryptoServiceFactory.isWebCryptoAvailable h = true →
      DefaultCryptoServiceFactory.createForPerformance h "high" = .ok Backend.web) ∧
    (DefaultCryptoServiceFactory.isNodeEnvironment h = false →
      DefaultCryptoServiceFactory.isWebCryptoAvailable h = false →
      DefaultCryptoServiceFactory.createForPerformance h "high" =
        .error (createCryptoError "initialization" "NO_CRYPTO_AVAILABLE" "No suitable crypto implementation available")) ∧
    (∀ level, (level = "medium" ∨ level = "low") →
      DefaultCryptoServiceFactory.isWebCryptoAvailable h = true →
      DefaultCryptoServiceFactory.createForPerformance h level = .ok Backend.web) ∧
    (∀ level, (level = "medium" ∨ level = "low") →
      DefaultCryptoServiceFactory.isWebCryptoAvailable h = false →
      DefaultCryptoServiceFactory.isNodeEnvironment h = true →
      DefaultCryptoServiceFactory.createForPerformance h level = .ok Backend.node) ∧
    (∀ level, (level = "medium" ∨ level = "low") →
      DefaultCryptoServiceFactory.isWebCryptoAvailable h = false →
      DefaultCryptoServiceFactory.isNodeEnvironment h = false →
      DefaultCryptoServiceFactory.createForPerformance h level =
        .error (createCryptoError "initialization" "NO_CRYPTO_AVAILABLE" "No suitable crypto implementation available")) ∧
    (∀ level, level ≠ "high" → level ≠ "medium" → level ≠ "low" →
      DefaultCryptoServiceFactory.createForPerformance h level =
        .error (createCryptoError "initialization" "UNKNOWN_PERFORMANCE_LEVEL" ("Unknown performance level: " ++ level))) := by
  refine ⟨fun h1 => ?_, fun h1 h2 => ?_, fun h1 h2 => ?_, fun level hl h2 => ?_,
          fun level hl h2 h3 => ?_, fun level hl h2 h3 => ?_, fun level h1 h2 h3 => ?_⟩
  · rw [DefaultCryptoServiceFactory.createForPerformance]
    simp [h1]
  · rw [DefaultCryptoServiceFactory.createForPerformance]
    simp [h1, h2]
  · rw [DefaultCryptoServiceFactory.createForPerformance]
    simp [h1, h2]
  · rcases hl with rfl | rfl
    · rw [DefaultCryptoServiceFactory.createForPerformance]
      simp [h2, show ¬("medium" : String) = "high" from by decide]
    · rw [DefaultCryptoServiceFactory.createForPerformance]
      simp [h2, show ¬("low" : String) = "high" from by decide]
  · rcases hl with rfl | rfl
    · rw [DefaultCryptoServiceFactory.createForPerformance]
      simp [h2, h3, show ¬("medium" : String) = "high" from by decide]
    · rw [DefaultCryptoServiceFactory.createForPerformance]
      simp [h2, h3, show ¬("low" : String) = "high" from by decide]
  · rcases hl with rfl | rfl
    · rw [DefaultCryptoServiceFactory.createForPerformance]
      simp [h2, h3, show ¬("medium" : String) = "high" from by decide]
    · rw [DefaultCryptoServiceFactory.createForPerformance]
      simp [h2, h3, show ¬("low" : String) = "high" from by decide]
  · rw [DefaultCryptoServiceFactory.createForPerformance]
    simp [h1, h2, h3]

/-- Witness for C9: all seven performance-selection branches evaluated on
concrete hosts. -/
theorem createForPerformance_spec_witness :
    DefaultCryptoServiceFactory.createForPerformance hostNode "high" = .ok Backend.node ∧
    DefaultCryptoServiceFactory.createForPerformance hostWeb "high" = .ok Backend.web ∧
    DefaultCryptoServiceFactory.createForPerformance hostNone "high" =
      .error (createCryptoError "initialization" "NO_CRYPTO_AVAILABLE" "No suitable crypto implementation available") ∧
    DefaultCryptoServiceFactory.createForPerformance hostWeb "medium" = .ok Backend.web ∧
    DefaultCryptoServiceFactory.createForPerformance hostNode "low" = .ok Backend.node ∧
    DefaultCryptoServiceFactory.createForPerformance hostNone "medium" =
      .error (createCryptoError "initialization" "NO_CRYPTO_AVAILABLE" "No suitable crypto implementation available") ∧
    DefaultCryptoServiceFactory.createForPerformance hostNone "turbo" =
      .error (createCryptoError "initialization" "UNKNOWN_PERFORMANCE_LEVEL" ("Unknown performance level: " ++ "turbo")) :=
  ⟨(createForPerformance_spec hostNode).1 rfl,
   (createForPerformance_spec hostWeb).2.1 rfl rfl,
   (createForPerformance_spec hostNone).2.2.1 rfl rfl,
   (createForPerformance_spec hostWeb).2.2.2.1 "medium" (Or.inl rfl) rfl,
   (createForPerformance_spec hostNode).2.2.2.2.1 "low" (Or.inr rfl) rfl rfl,
   (createForPerformance_spec hostNone).2.2.2.2.2.1 "medium" (Or.inl rfl) rfl rfl,
   (createForPerformance_spec hostNone).2.2.2.2.2.2 "turbo" (by decide) (by decide) (by decide)⟩

end PMCrypt
